import Mathlib

/-!
# Verification of the study-room booking engine

A shallow embedding of the slot-allocation and moderation core of the
booking system: the `Booking` and `Room` entities, the in-memory
repositories, and the moderated `BookingService` operations
(createBooking, cancelBooking, approveBooking, rejectBooking,
deleteBooking, reApproveBooking, getAvailableSlots), together with the
earlier max-2-active-bookings quota rule.

Time instants are modelled as natural numbers counting milliseconds
since an epoch, with calendar operations (`setHours(0,0,0,0)`,
`getHours()`) as arithmetic on that count; the JavaScript local-time
zone offset and DST are not modelled (all arithmetic is uniform days
of 86400000 ms). Entity methods that throw are modelled as
`Except`-valued functions; a thrown error produces no successor state,
mirroring that in the source each throw happens before any mutation of
the repositories.
-/

/-- Milliseconds in one hour. -/
def msPerHour : Nat := 3600000

/-- Milliseconds in one day. -/
def msPerDay : Nat := 86400000

/-- Hour-of-day of an instant, as in JavaScript `date.getHours()`. -/
def hourOfDay (t : Nat) : Nat := t / msPerHour % 24

/-- Midnight at the start of the day of the instant, as in
`d.setHours(0, 0, 0, 0)` followed by `d.getTime()`. -/
def dayStart (t : Nat) : Nat := t / msPerDay * msPerDay

/-- The last millisecond of the day of the instant, as in
`d.setHours(23, 59, 59, 999)`. -/
def dayEnd (t : Nat) : Nat := dayStart t + (msPerDay - 1)

/-- Reservation lifecycle status (enum `BookingStatus`, second era:
PENDING / APPROVED / CANCELLED / COMPLETED). -/
inductive BookingStatus where
  | PENDING
  | APPROVED
  | CANCELLED
  | COMPLETED
deriving DecidableEq, Repr

/-- Operational state of a room (enum `RoomStatus`). -/
inductive RoomStatus where
  | AVAILABLE
  | OCCUPIED
  | MAINTENANCE
deriving DecidableEq, Repr

/-- The error conditions thrown by the entities and the service, one
constructor per distinct `throw new Error(...)` message in the source. -/
inductive BookingError where
  | NonPositiveDuration
  | BadDuration
  | OutsideOperatingHours
  | InsufficientNotice
  | RoomNotFound
  | RoomNotAvailable
  | OneBookingPerDay
  | SlotAlreadyBooked
  | BookingNotFound
  | Unauthorized
  | OnlyPendingCanBeApproved
  | OnlyPendingCanBeRejected
  | OnlyApprovedOrPendingCanBeCancelled
  | OnlyApprovedCanBeCompleted
  | OnlyCancelledCanBeReApproved
deriving DecidableEq, Repr

/-- Entity `Booking` (server/src/domain/entities/Booking.ts, moderated
era): immutable id, roomId, userId, userName, startTime, endTime,
createdAt, and a mutable status. -/
structure Booking where
  id : String
  roomId : String
  userId : String
  userName : String
  startTime : Nat
  endTime : Nat
  status : BookingStatus
  createdAt : Nat
deriving DecidableEq, Repr

/-- Entity `Room`: id, name, capacity, amenities, mutable status. -/
structure Room where
  id : String
  name : String
  capacity : Nat
  amenities : List String
  status : RoomStatus
deriving DecidableEq, Repr

/-- `Booking.prototype.isActive`: status is APPROVED. -/
def Booking.isActive (b : Booking) : Bool := b.status == BookingStatus.APPROVED

/-- `Booking.prototype.isPending`: status is PENDING. -/
def Booking.isPending (b : Booking) : Bool := b.status == BookingStatus.PENDING

/-- `Booking.prototype.validate`, the eligibility validator run by the
`Booking` constructor. The source reads the clock with `new Date()`;
here `now` is passed explicitly. The four rules, in source order:
positive duration, duration exactly 1 or 2 hours, start hour within
[7, 21), and start date at least tomorrow (`bookingDate < tomorrow`
rejects, where `tomorrow` is midnight starting the day after `now`). -/
def Booking.validate (now : Nat) (b : Booking) : Except BookingError Unit :=
  if b.endTime ≤ b.startTime then
    Except.error BookingError.NonPositiveDuration
  else if b.endTime - b.startTime ≠ 1 * msPerHour ∧ b.endTime - b.startTime ≠ 2 * msPerHour then
    Except.error BookingError.BadDuration
  else if hourOfDay b.startTime < 7 ∨ 21 ≤ hourOfDay b.startTime then
    Except.error BookingError.OutsideOperatingHours
  else if dayStart b.startTime < dayStart now + msPerDay then
    Except.error BookingError.InsufficientNotice
  else
    Except.ok ()

/-- The `Booking` constructor of the moderated era: builds the record
with default status PENDING and `createdAt = new Date()`, then runs
`validate` (which throws on violation). -/
def Booking.create (now : Nat) (id roomId userId userName : String)
    (startTime endTime : Nat) : Except BookingError Booking :=
  let b : Booking :=
    { id := id, roomId := roomId, userId := userId, userName := userName,
      startTime := startTime, endTime := endTime,
      status := BookingStatus.PENDING, createdAt := now }
  match Booking.validate now b with
  | Except.error e => Except.error e
  | Except.ok _ => Except.ok b

/-- `Booking.prototype.approve`: only PENDING bookings can be approved. -/
def Booking.approve (b : Booking) : Except BookingError Booking :=
  if b.status ≠ BookingStatus.PENDING then
    Except.error BookingError.OnlyPendingCanBeApproved
  else
    Except.ok { b with status := BookingStatus.APPROVED }

/-- `Booking.prototype.reject`: only PENDING bookings can be rejected;
sets CANCELLED. -/
def Booking.reject (b : Booking) : Except BookingError Booking :=
  if b.status ≠ BookingStatus.PENDING then
    Except.error BookingError.OnlyPendingCanBeRejected
  else
    Except.ok { b with status := BookingStatus.CANCELLED }

/-- `Booking.prototype.cancel`: only APPROVED or PENDING bookings can
be cancelled; sets CANCELLED. -/
def Booking.cancel (b : Booking) : Except BookingError Booking :=
  if b.status ≠ BookingStatus.APPROVED ∧ b.status ≠ BookingStatus.PENDING then
    Except.error BookingError.OnlyApprovedOrPendingCanBeCancelled
  else
    Except.ok { b with status := BookingStatus.CANCELLED }

/-- `Room.prototype.isAvailable`. -/
def Room.isAvailable (r : Room) : Bool := r.status == RoomStatus.AVAILABLE

/-- The two in-memory repositories (`Map<string, _>` keyed by id) and
the wiring of `BookingService`, as one state record. A `Map` preserves
insertion order, so each store is a list without duplicate keys in
normal use; `upsert` below reproduces `Map.set`. -/
structure SystemState where
  bookings : List Booking
  rooms : List Room
deriving DecidableEq, Repr

/-- `Map.set` on an id-keyed list: replace an existing entry in place,
else append. -/
def upsert {α : Type} (key : α → String) (l : List α) (a : α) : List α :=
  if l.any (fun x => key x == key a) then
    l.map (fun x => if key x == key a then a else x)
  else
    l ++ [a]

/-- `BookingRepository.findById`. -/
def findBookingById (s : SystemState) (id : String) : Option Booking :=
  s.bookings.find? (fun b => b.id == id)

/-- `RoomRepository.findById`. -/
def findRoomById (s : SystemState) (id : String) : Option Room :=
  s.rooms.find? (fun r => r.id == id)

/-- `BookingRepository.findByUserId`. -/
def findByUserId (s : SystemState) (userId : String) : List Booking :=
  s.bookings.filter (fun b => b.userId == userId)

/-- `BookingRepository.findByRoomAndDateRange`: APPROVED bookings of
the room whose half-open interval meets `(start, end)` by
`startTime < end && endTime > start`. -/
def findByRoomAndDateRange (s : SystemState) (roomId : String)
    (start fin : Nat) : List Booking :=
  s.bookings.filter (fun b =>
    b.roomId == roomId &&
    b.status == BookingStatus.APPROVED &&
    decide (b.startTime < fin) &&
    decide (b.endTime > start))

/-- `BookingRepository.save`. -/
def saveBooking (s : SystemState) (b : Booking) : SystemState :=
  { s with bookings := upsert Booking.id s.bookings b }

/-- `RoomRepository.save`. -/
def saveRoom (s : SystemState) (r : Room) : SystemState :=
  { s with rooms := upsert Room.id s.rooms r }

/-- `BookingService.updateRoomAvailability`: the room becomes
AVAILABLE when no APPROVED booking of the room overlaps the window
from `now` to one day later, else OCCUPIED. -/
def updateRoomAvailability (s : SystemState) (now : Nat) (roomId : String) : SystemState :=
  let tomorrow := now + msPerDay
  let activeBookings := findByRoomAndDateRange s roomId now tomorrow
  match findRoomById s roomId with
  | none => s
  | some room =>
    if activeBookings.length == 0 then
      saveRoom s { room with status := RoomStatus.AVAILABLE }
    else
      saveRoom s { room with status := RoomStatus.OCCUPIED }

/-- `BookingService.createBooking` (moderated variant): room must
exist and be AVAILABLE; the requester must hold no PENDING or APPROVED
booking starting the same calendar day; no APPROVED booking of the
room may overlap the proposal; then the `Booking` constructor
validates and the PENDING booking is saved. The fresh uuid and the
clock are passed in as `newId` and `now`. -/
def createBooking (s : SystemState) (now : Nat) (newId : String)
    (userId userName roomId : String) (startTime endTime : Nat) :
    Except BookingError (SystemState × Booking) :=
  match findRoomById s roomId with
  | none => Except.error BookingError.RoomNotFound
  | some room =>
    if ¬ room.isAvailable then
      Except.error BookingError.RoomNotAvailable
    else
      let userBookings := findByUserId s userId
      let bookingsOnSameDay := userBookings.filter (fun b =>
        dayStart b.startTime == dayStart startTime && (b.isActive || b.isPending))
      if bookingsOnSameDay.length > 0 then
        Except.error BookingError.OneBookingPerDay
      else
        let conflicts := findByRoomAndDateRange s roomId startTime endTime
        let approvedConflicts := conflicts.filter (fun b => b.isActive)
        if approvedConflicts.length > 0 then
          Except.error BookingError.SlotAlreadyBooked
        else
          match Booking.create now newId roomId userId userName startTime endTime with
          | Except.error e => Except.error e
          | Except.ok b => Except.ok (saveBooking s b, b)

/-- `BookingService.cancelBooking`: lookup, ownership check, entity
`cancel`, save, then recompute the availability of the room. -/
def cancelBooking (s : SystemState) (now : Nat) (bookingId userId : String) :
    Except BookingError SystemState :=
  match findBookingById s bookingId with
  | none => Except.error BookingError.BookingNotFound
  | some booking =>
    if booking.userId ≠ userId then
      Except.error BookingError.Unauthorized
    else
      match booking.cancel with
      | Except.error e => Except.error e
      | Except.ok cancelled =>
        let s2 := saveBooking s cancelled
        Except.ok (updateRoomAvailability s2 now cancelled.roomId)

/-- `BookingService.approveBooking`: entity `approve`, save, then mark
the room OCCUPIED when it exists. -/
def approveBooking (s : SystemState) (bookingId : String) :
    Except BookingError (SystemState × Booking) :=
  match findBookingById s bookingId with
  | none => Except.error BookingError.BookingNotFound
  | some booking =>
    match booking.approve with
    | Except.error e => Except.error e
    | Except.ok approved =>
      let s2 := saveBooking s approved
      match findRoomById s2 approved.roomId with
      | none => Except.ok (s2, approved)
      | some room => Except.ok (saveRoom s2 { room with status := RoomStatus.OCCUPIED }, approved)

/-- `BookingService.rejectBooking`: entity `reject` then save; rooms
untouched. -/
def rejectBooking (s : SystemState) (bookingId : String) :
    Except BookingError (SystemState × Booking) :=
  match findBookingById s bookingId with
  | none => Except.error BookingError.BookingNotFound
  | some booking =>
    match booking.reject with
    | Except.error e => Except.error e
    | Except.ok rejected => Except.ok (saveBooking s rejected, rejected)

/-- `BookingService.deleteBooking`: hard removal from the store, then
recompute the availability of the room. -/
def deleteBooking (s : SystemState) (now : Nat) (bookingId : String) :
    Except BookingError SystemState :=
  match findBookingById s bookingId with
  | none => Except.error BookingError.BookingNotFound
  | some booking =>
    let s2 : SystemState := { s with bookings := s.bookings.filter (fun b => b.id ≠ bookingId) }
    Except.ok (updateRoomAvailability s2 now booking.roomId)

/-- `BookingService.reApproveBooking`: requires status CANCELLED, then
writes the status field back to PENDING directly and saves; rooms
untouched. -/
def reApproveBooking (s : SystemState) (bookingId : String) :
    Except BookingError (SystemState × Booking) :=
  match findBookingById s bookingId with
  | none => Except.error BookingError.BookingNotFound
  | some booking =>
    if booking.status ≠ BookingStatus.CANCELLED then
      Except.error BookingError.OnlyCancelledCanBeReApproved
    else
      let reopened := { booking with status := BookingStatus.PENDING }
      Except.ok (saveBooking s reopened, reopened)

/-- One derived availability slot (`getAvailableSlots` output row). -/
structure Slot where
  startHour : Nat
  endHour : Nat
  isAvailable : Bool
  displayLabel : String
deriving DecidableEq, Repr

/-- `BookingService.formatTimeSlot`: 12-hour clock display label. -/
def formatTimeSlot (startHour endHour : Nat) : String :=
  let startAMPM := if startHour < 12 then "AM" else "PM"
  let endAMPM := if endHour < 12 ∨ endHour = 24 then "AM" else "PM"
  let startDisplay := if startHour > 12 then startHour - 12 else startHour
  let endDisplay := if endHour > 12 then endHour - 12 else endHour
  toString startDisplay ++ ":00 " ++ startAMPM ++ " - " ++ toString endDisplay ++ ":00 " ++ endAMPM

/-- `BookingService.getAvailableSlots`: fetch the APPROVED
bookings of the room for the day (range midnight to 23:59:59.999), then for each
hour 7..20 the slot is booked when some fetched booking covers the
instant of the slot start (`startTime <= slotStart && endTime >
slotStart`). The source loop `for (hour = 7; hour < 21)` is rendered
as a map over `List.range 14` with `hour = 7 + i`. -/
def getAvailableSlots (s : SystemState) (roomId : String) (date : Nat) : List Slot :=
  let dateStart := dayStart date
  let dateEnd := dayEnd date
  let bookedSlots := findByRoomAndDateRange s roomId dateStart dateEnd
  (List.range 14).map (fun i =>
    let hour := 7 + i
    let slotStart := dayStart date + hour * msPerHour
    let isBooked := bookedSlots.any (fun b =>
      decide (b.startTime ≤ slotStart) && decide (b.endTime > slotStart))
    { startHour := hour, endHour := hour + 1, isAvailable := !isBooked,
      displayLabel := formatTimeSlot hour (hour + 1) })

/-- The quota rule of the earlier (unmoderated) variant, from the first era
of `BookingService.createBooking`: reject when the requester already
holds two or more active bookings, system-wide. -/
def maxTwoQuotaRejects (userBookings : List Booking) : Bool :=
  decide ((userBookings.filter (fun b => b.isActive)).length ≥ 2)

/-- The quota rule of the moderated variant: reject when the requester
already holds a PENDING or APPROVED booking starting the same calendar
day as the proposal. -/
def onePerDayQuotaRejects (userBookings : List Booking) (startTime : Nat) : Bool :=
  decide ((userBookings.filter (fun b =>
    dayStart b.startTime == dayStart startTime && (b.isActive || b.isPending))).length > 0)

/-- One externally invocable mutating operation of the service, for
stating reachability over operation sequences. -/
inductive Op where
  | create (now : Nat) (newId userId userName roomId : String) (startTime endTime : Nat)
  | cancel (now : Nat) (bookingId userId : String)
  | approve (bookingId : String)
  | reject (bookingId : String)
  | reopen (bookingId : String)
  | delete (now : Nat) (bookingId : String)

/-- Apply one operation; a thrown error leaves the state unchanged
(the transport layer reports it and the stores were not mutated). -/
def applyOp (s : SystemState) : Op → SystemState
  | Op.create now newId userId userName roomId st en =>
    match createBooking s now newId userId userName roomId st en with
    | Except.ok (s2, _) => s2
    | Except.error _ => s
  | Op.cancel now bookingId userId =>
    match cancelBooking s now bookingId userId with
    | Except.ok s2 => s2
    | Except.error _ => s
  | Op.approve bookingId =>
    match approveBooking s bookingId with
    | Except.ok (s2, _) => s2
    | Except.error _ => s
  | Op.reject bookingId =>
    match rejectBooking s bookingId with
    | Except.ok (s2, _) => s2
    | Except.error _ => s
  | Op.reopen bookingId =>
    match reApproveBooking s bookingId with
    | Except.ok (s2, _) => s2
    | Except.error _ => s
  | Op.delete now bookingId =>
    match deleteBooking s now bookingId with
    | Except.ok s2 => s2
    | Except.error _ => s

/-- Run a sequence of operations. -/
def runOps (s : SystemState) (ops : List Op) : SystemState :=
  ops.foldl applyOp s

/-- The no-double-allocation property of a state: any two distinct
APPROVED bookings of the same room have non-overlapping half-open
intervals. -/
def noDoubleAllocation (s : SystemState) : Prop :=
  ∀ a ∈ s.bookings, ∀ b ∈ s.bookings, a.id ≠ b.id →
    a.status = BookingStatus.APPROVED → b.status = BookingStatus.APPROVED →
    a.roomId = b.roomId →
    ¬ (a.startTime < b.endTime ∧ a.endTime > b.startTime)

instance (s : SystemState) : Decidable (noDoubleAllocation s) := by
  unfold noDoubleAllocation
  infer_instance

/-! ## Helper lemmas about the id-keyed stores -/

/-- A successful `find?` witnesses a successful `any`. -/
theorem any_of_find_some {α : Type} (p : α → Bool) (l : List α) (a : α)
    (h : l.find? p = some a) : l.any p = true :=
  List.any_eq_true.mpr ⟨a, List.mem_of_find?_eq_some h, List.find?_some h⟩

/-- The key found by an id lookup is the id looked up. -/
theorem find_key_eq {α : Type} (key : α → String) (id : String) (l : List α) (a : α)
    (h : l.find? (fun x => key x == id) = some a) : key a = id := by
  have hp := List.find?_some h
  exact eq_of_beq hp

/-- Replacing every entry keyed like `b` makes the id lookup return `b`,
provided the lookup succeeded before. -/
theorem find_map_replace {α : Type} (key : α → String) (id : String) (b : α)
    (hb : key b = id) :
    ∀ (l : List α) (a : α), l.find? (fun x => key x == id) = some a →
      (l.map (fun x => if key x == key b then b else x)).find?
        (fun x => key x == id) = some b := by
  intro l
  induction l with
  | nil => intro a h; simp at h
  | cons x xs ih =>
    intro a h
    by_cases hx : (key x == id) = true
    · have hxb : (key x == key b) = true := by rw [hb]; exact hx
      have hbid : (key b == id) = true := beq_iff_eq.mpr hb
      simp only [List.map_cons]
      rw [if_pos hxb]
      exact List.find?_cons_of_pos _ hbid
    · have hxb : ¬ ((key x == key b) = true) := by
        intro hcontra
        exact hx (beq_iff_eq.mpr (by rw [eq_of_beq hcontra, hb]))
      simp only [List.map_cons]
      rw [if_neg hxb]
      have hstep : List.find? (fun y => key y == id)
          (x :: (xs.map (fun z => if key z == key b then b else z))) =
          List.find? (fun y => key y == id)
          (xs.map (fun z => if key z == key b then b else z)) :=
        List.find?_cons_of_neg _ hx
      rw [hstep]
      have hstep2 : List.find? (fun y => key y == id) (x :: xs) =
          List.find? (fun y => key y == id) xs :=
        List.find?_cons_of_neg _ hx
      rw [hstep2] at h
      exact ih a h

/-- `Map.set` makes the id lookup return the saved entry, provided the
lookup succeeded before with the same key. -/
theorem upsert_find {α : Type} (key : α → String) (id : String) (l : List α) (a b : α)
    (h : l.find? (fun x => key x == id) = some a) (hb : key b = id) :
    (upsert key l b).find? (fun x => key x == id) = some b := by
  unfold upsert
  have hany : l.any (fun x => key x == key b) = true := by
    simp only [hb]
    exact any_of_find_some _ l a h
  rw [if_pos hany]
  exact find_map_replace key id b hb l a h

/-- A saved entry is in the store afterwards. -/
theorem mem_upsert_self {α : Type} (key : α → String) (l : List α) (a : α) :
    a ∈ upsert key l a := by
  unfold upsert
  by_cases h : l.any (fun x => key x == key a) = true
  · rw [if_pos h]
    obtain ⟨x, hx, hxa⟩ := List.any_eq_true.mp h
    exact List.mem_map.mpr ⟨x, hx, by rw [if_pos hxa]⟩
  · rw [if_neg h]
    exact List.mem_append_right _ (List.mem_singleton.mpr rfl)

/-- `updateRoomAvailability` never touches the booking store. -/
theorem updateRoomAvailability_bookings (s : SystemState) (now : Nat) (roomId : String) :
    (updateRoomAvailability s now roomId).bookings = s.bookings := by
  unfold updateRoomAvailability
  cases findRoomById s roomId with
  | none => rfl
  | some room =>
    dsimp only
    split <;> rfl

/-- The day rule of `validate` in terms of calendar day indices: the
truncated start date is before tomorrow-midnight exactly when the start
falls on the validation day or earlier. -/
theorem dayStart_lt_tomorrow_iff (a c : Nat) :
    dayStart a < dayStart c + msPerDay ↔ a / msPerDay ≤ c / msPerDay := by
  unfold dayStart msPerDay
  omega

/-- `validate` never reports a conflict error: its reasons are the four
eligibility reasons only. -/
theorem validate_ne_slotAlreadyBooked (now : Nat) (b : Booking) :
    Booking.validate now b ≠ Except.error BookingError.SlotAlreadyBooked := by
  unfold Booking.validate
  split
  · simp
  · split
    · simp
    · split
      · simp
      · split <;> simp

/-- `validate` never reports the per-day quota error either. -/
theorem validate_ne_oneBookingPerDay (now : Nat) (b : Booking) :
    Booking.validate now b ≠ Except.error BookingError.OneBookingPerDay := by
  unfold Booking.validate
  split
  · simp
  · split
    · simp
    · split
      · simp
      · split <;> simp

/-! ## Characterisation of createBooking -/

/-- With the room found and available, `createBooking` reduces to the
per-day check, the conflict check, and the validating constructor. -/
theorem createBooking_spec (s : SystemState) (now : Nat)
    (newId userId userName roomId : String) (st en : Nat) (room : Room)
    (hr : findRoomById s roomId = some room)
    (hav : room.isAvailable = true) :
    createBooking s now newId userId userName roomId st en =
      (if ((findByUserId s userId).filter (fun b =>
            dayStart b.startTime == dayStart st && (b.isActive || b.isPending))).length > 0 then
        Except.error BookingError.OneBookingPerDay
      else if ((findByRoomAndDateRange s roomId st en).filter
            (fun b => b.isActive)).length > 0 then
        Except.error BookingError.SlotAlreadyBooked
      else
        match Booking.create now newId roomId userId userName st en with
        | Except.error e => Except.error e
        | Except.ok b => Except.ok (saveBooking s b, b)) := by
  unfold createBooking
  rw [hr]
  dsimp only
  rw [if_neg (not_not_intro hav)]

/-- The per-day filter finds an entry exactly when the requester holds
a PENDING or APPROVED booking starting the same calendar day. -/
theorem sameDay_cond_iff (s : SystemState) (userId : String) (st : Nat) :
    (((findByUserId s userId).filter (fun b =>
        dayStart b.startTime == dayStart st && (b.isActive || b.isPending))).length > 0) ↔
    ∃ b ∈ s.bookings, b.userId = userId ∧ dayStart b.startTime = dayStart st ∧
      (b.status = BookingStatus.PENDING ∨ b.status = BookingStatus.APPROVED) := by
  rw [gt_iff_lt, List.length_pos_iff_exists_mem]
  unfold findByUserId
  constructor
  · rintro ⟨b, hb⟩
    rw [List.mem_filter] at hb
    obtain ⟨hb1, hb2⟩ := hb
    rw [List.mem_filter] at hb1
    obtain ⟨hmem, hu⟩ := hb1
    rw [Bool.and_eq_true] at hb2
    obtain ⟨hd, hs⟩ := hb2
    rw [Bool.or_eq_true] at hs
    refine ⟨b, hmem, eq_of_beq hu, eq_of_beq hd, ?_⟩
    cases hs with
    | inl h => exact Or.inr (by simpa [Booking.isActive] using h)
    | inr h => exact Or.inl (by simpa [Booking.isPending] using h)
  · rintro ⟨b, hmem, hu, hd, hs⟩
    refine ⟨b, ?_⟩
    rw [List.mem_filter]
    refine ⟨List.mem_filter.mpr ⟨hmem, beq_iff_eq.mpr hu⟩, ?_⟩
    rw [Bool.and_eq_true]
    refine ⟨beq_iff_eq.mpr hd, ?_⟩
    rw [Bool.or_eq_true]
    cases hs with
    | inl h => exact Or.inr (by simp [Booking.isPending, h])
    | inr h => exact Or.inl (by simp [Booking.isActive, h])

/-- The conflict filter finds an entry exactly when an APPROVED booking
of the room overlaps the proposal half-openly. -/
theorem conflict_cond_iff (s : SystemState) (roomId : String) (st en : Nat) :
    (((findByRoomAndDateRange s roomId st en).filter (fun b => b.isActive)).length > 0) ↔
    ∃ b ∈ s.bookings, b.roomId = roomId ∧ b.status = BookingStatus.APPROVED ∧
      b.startTime < en ∧ b.endTime > st := by
  rw [gt_iff_lt, List.length_pos_iff_exists_mem]
  unfold findByRoomAndDateRange
  constructor
  · rintro ⟨b, hb⟩
    rw [List.mem_filter] at hb
    obtain ⟨hb1, _⟩ := hb
    rw [List.mem_filter] at hb1
    obtain ⟨hmem, hcond⟩ := hb1
    simp only [Bool.and_eq_true, beq_iff_eq, decide_eq_true_eq] at hcond
    exact ⟨b, hmem, hcond.1.1.1, hcond.1.1.2, hcond.1.2, hcond.2⟩
  · rintro ⟨b, hmem, hroom, hstat, hlt, hgt⟩
    refine ⟨b, ?_⟩
    rw [List.mem_filter]
    constructor
    · rw [List.mem_filter]
      refine ⟨hmem, ?_⟩
      simp only [Bool.and_eq_true, beq_iff_eq, decide_eq_true_eq]
      exact ⟨⟨⟨hroom, hstat⟩, hlt⟩, hgt⟩
    · simp [Booking.isActive, hstat]

/-! ## Concrete fixtures -/

/-- A seeded available room. -/
def roomA : Room :=
  { id := "A", name := "Room A", capacity := 4, amenities := [], status := RoomStatus.AVAILABLE }

/-- The same room under occupation. -/
def roomAOccupied : Room := { roomA with status := RoomStatus.OCCUPIED }

/-- A reference clock: day 0 at 14:00. -/
def tNow : Nat := 50400000

/-- Day 2 at 10:00. -/
def tStartA : Nat := 208800000

/-- Day 2 at 11:00. -/
def tEndA : Nat := 212400000

/-- Day 2 at 10:30. -/
def tStartB : Nat := 210600000

/-- Day 2 at 11:30. -/
def tEndB : Nat := 214200000

/-- Fresh state: room A seeded, no bookings. -/
def stateEmptyA : SystemState := { bookings := [], rooms := [roomA] }

/-- State whose only room is occupied and whose booking store is empty. -/
def stateOccupiedA : SystemState := { bookings := [], rooms := [roomAOccupied] }

/-- An APPROVED booking starting on the half hour (day 2, 10:30 to 11:30). -/
def halfPastBooking : Booking :=
  { id := "h", roomId := "A", userId := "U1", userName := "N1",
    startTime := tStartB, endTime := tEndB,
    status := BookingStatus.APPROVED, createdAt := tNow }

/-- Room A available while the half-hour booking is APPROVED. -/
def stateHalfPast : SystemState := { bookings := [halfPastBooking], rooms := [roomA] }

/-- Two same-room pending requests by different users, then both are
approved by the moderator. -/
def doubleApproveOps : List Op :=
  [Op.create tNow "r1" "U1" "N1" "A" tStartA tEndA,
   Op.create tNow "r2" "U2" "N2" "A" tStartB tEndB,
   Op.approve "r1",
   Op.approve "r2"]

/-! ## C2: the advance-notice rule -/

/-- C2 counterexample. The claim states that a reservation whose start
date is exactly tomorrow (now = Jan 10 14:00, start = Jan 11 10:00)
fails validation with INSUFFICIENT_NOTICE. On the code it passes: the
validator rejects only `bookingDate < tomorrow`, and tomorrow is not
before tomorrow. Modelled as day 10 at 14:00 and day 11 at 10:00. -/
theorem C2_counterexample :
    Booking.validate (10 * 86400000 + 14 * 3600000)
      { id := "x", roomId := "A", userId := "U", userName := "N",
        startTime := 11 * 86400000 + 10 * 3600000,
        endTime := 11 * 86400000 + 11 * 3600000,
        status := BookingStatus.PENDING,
        createdAt := 10 * 86400000 + 14 * 3600000 } = Except.ok () := by
  rfl

/-- C2 (amended): for a proposal passing the structural rules (positive
duration, 1-or-2-hour duration, operating-hours start), validation
fails with INSUFFICIENT_NOTICE exactly when the calendar date of start
is at most the calendar date of now (today or earlier), and passes
exactly when the start date is at least tomorrow. -/
theorem C2_amended (now : Nat) (b : Booking)
    (hpos : b.startTime < b.endTime)
    (hdur : b.endTime - b.startTime = 1 * msPerHour ∨ b.endTime - b.startTime = 2 * msPerHour)
    (hhour : 7 ≤ hourOfDay b.startTime ∧ hourOfDay b.startTime < 21) :
    (Booking.validate now b = Except.error BookingError.InsufficientNotice ↔
      b.startTime / msPerDay ≤ now / msPerDay) ∧
    (Booking.validate now b = Except.ok () ↔ now / msPerDay < b.startTime / msPerDay) := by
  unfold Booking.validate
  rw [if_neg (by omega)]
  rw [if_neg (by rcases hdur with h | h <;> simp [h])]
  rw [if_neg (by omega)]
  by_cases hd : dayStart b.startTime < dayStart now + msPerDay
  · rw [if_pos hd]
    rw [dayStart_lt_tomorrow_iff] at hd
    constructor
    · constructor
      · intro _; exact hd
      · intro _; rfl
    · constructor
      · intro h; exact absurd h (by simp)
      · intro h; omega
  · rw [if_neg hd]
    rw [dayStart_lt_tomorrow_iff] at hd
    constructor
    · constructor
      · intro h; exact absurd h (by simp)
      · intro h; omega
    · constructor
      · intro _; omega
      · intro _; rfl

/-- C2 witness: now = day 10 at 14:00, start = day 12 at 10:00 (two
days out) passes the validator. -/
theorem C2_amended_witness :
    Booking.validate (10 * 86400000 + 14 * 3600000)
      { id := "x", roomId := "A", userId := "U", userName := "N",
        startTime := 12 * 86400000 + 10 * 3600000,
        endTime := 12 * 86400000 + 11 * 3600000,
        status := BookingStatus.PENDING,
        createdAt := 10 * 86400000 + 14 * 3600000 } = Except.ok () := by
  exact (C2_amended (10 * 86400000 + 14 * 3600000)
    { id := "x", roomId := "A", userId := "U", userName := "N",
      startTime := 12 * 86400000 + 10 * 3600000,
      endTime := 12 * 86400000 + 11 * 3600000,
      status := BookingStatus.PENDING,
      createdAt := 10 * 86400000 + 14 * 3600000 }
    (by decide) (Or.inl (by decide)) (by decide)).2.mpr (by decide)

/-! ## C3: creation persists a PENDING reservation -/

/-- C3 counterexample. The claim states creation succeeds regardless
of the operational state of the resource. On the code it does not: with the
room catalogued but OCCUPIED, an empty booking store (hence no per-day
and no overlap obstruction) and an eligible proposal, `createBooking`
fails with the room-not-available error instead of persisting a
PENDING reservation. -/
theorem C3_counterexample :
    findRoomById stateOccupiedA "A" = some roomAOccupied ∧
    stateOccupiedA.bookings = [] ∧
    Booking.validate tNow
      { id := "r9", roomId := "A", userId := "U1", userName := "N1",
        startTime := tStartA, endTime := tEndA,
        status := BookingStatus.PENDING, createdAt := tNow } = Except.ok () ∧
    createBooking stateOccupiedA tNow "r9" "U1" "N1" "A" tStartA tEndA =
      Except.error BookingError.RoomNotAvailable := by
  exact ⟨rfl, rfl, rfl, rfl⟩

/-- C3 (amended): when the resource exists AND its operational state is
AVAILABLE, the eligibility rules hold, the requester holds no PENDING
or APPROVED reservation on the proposed start date, and no APPROVED
reservation on the resource overlaps the proposed interval, the
operation succeeds and persists a new reservation in status PENDING. -/
theorem C3_amended (s : SystemState) (now : Nat)
    (newId userId userName roomId : String) (st en : Nat) (room : Room)
    (hr : findRoomById s roomId = some room)
    (hav : room.status = RoomStatus.AVAILABLE)
    (hval : Booking.validate now
      { id := newId, roomId := roomId, userId := userId, userName := userName,
        startTime := st, endTime := en,
        status := BookingStatus.PENDING, createdAt := now } = Except.ok ())
    (hday : ∀ b ∈ s.bookings, b.userId = userId → dayStart b.startTime = dayStart st →
      b.status ≠ BookingStatus.PENDING ∧ b.status ≠ BookingStatus.APPROVED)
    (hconf : ∀ b ∈ s.bookings, b.roomId = roomId → b.status = BookingStatus.APPROVED →
      ¬ (b.startTime < en ∧ b.endTime > st)) :
    ∃ nb : Booking,
      createBooking s now newId userId userName roomId st en =
        Except.ok (saveBooking s nb, nb) ∧
      nb.status = BookingStatus.PENDING ∧
      nb ∈ (saveBooking s nb).bookings := by
  rw [createBooking_spec s now newId userId userName roomId st en room hr
    (by simp [Room.isAvailable, hav])]
  rw [if_neg (by
    rw [sameDay_cond_iff]
    rintro ⟨b, hmem, hu, hd, hs⟩
    rcases hs with h | h
    · exact (hday b hmem hu hd).1 h
    · exact (hday b hmem hu hd).2 h)]
  rw [if_neg (by
    rw [conflict_cond_iff]
    rintro ⟨b, hmem, hroom, hstat, hlt, hgt⟩
    exact hconf b hmem hroom hstat ⟨hlt, hgt⟩)]
  refine ⟨{ id := newId, roomId := roomId, userId := userId, userName := userName,
            startTime := st, endTime := en,
            status := BookingStatus.PENDING, createdAt := now }, ?_, rfl, ?_⟩
  · unfold Booking.create
    dsimp only
    rw [hval]
  · exact mem_upsert_self Booking.id s.bookings _

/-- C3 witness: in the fresh state the eligible proposal for day 2 at
10:00 is persisted PENDING. -/
theorem C3_amended_witness :
    ∃ nb : Booking,
      createBooking stateEmptyA tNow "r1" "U1" "N1" "A" tStartA tEndA =
        Except.ok (saveBooking stateEmptyA nb, nb) ∧
      nb.status = BookingStatus.PENDING ∧
      nb ∈ (saveBooking stateEmptyA nb).bookings := by
  exact C3_amended stateEmptyA tNow "r1" "U1" "N1" "A" tStartA tEndA roomA
    rfl rfl rfl
    (by intro b hb; exact absurd hb (by simp [stateEmptyA]))
    (by intro b hb; exact absurd hb (by simp [stateEmptyA]))

/-! ## C1: the no-double-allocation invariant -/

/-- C1 counterexample. The claim asserts that in every reachable state
any two APPROVED reservations on the same resource are disjoint. The
moderation path breaks it: two overlapping requests by different users
are both accepted as PENDING (pending reservations do not block
creation), and `approveBooking` performs no conflict re-check, so
approving both yields two overlapping APPROVED reservations on room A.
(The test scenario of the claim also fails for another reason: after an
approval sets the room OCCUPIED, a second create request fails with
the room-not-available error, not SLOT_ALREADY_BOOKED.) -/
theorem C1_counterexample :
    ¬ noDoubleAllocation (runOps stateEmptyA doubleApproveOps) := by
  decide

/-- C1 (amended): conflict exclusion holds at creation time only —
whenever `createBooking` succeeds, no APPROVED reservation already in
the store on the same resource overlaps the new interval. The global
invariant does not survive `approveBooking`, which re-checks nothing. -/
theorem C1_amended (s : SystemState) (now : Nat)
    (newId userId userName roomId : String) (st en : Nat)
    (s2 : SystemState) (nb : Booking)
    (hok : createBooking s now newId userId userName roomId st en = Except.ok (s2, nb)) :
    ∀ b ∈ s.bookings, b.roomId = roomId → b.status = BookingStatus.APPROVED →
      ¬ (b.startTime < en ∧ b.endTime > st) := by
  intro b hmem hroom hstat hover
  cases hr : findRoomById s roomId with
  | none =>
    unfold createBooking at hok
    rw [hr] at hok
    exact absurd hok (by simp)
  | some room =>
    by_cases hav : room.isAvailable = true
    · rw [createBooking_spec s now newId userId userName roomId st en room hr hav] at hok
      have hc2 : ((findByRoomAndDateRange s roomId st en).filter
          (fun x => x.isActive)).length > 0 :=
        (conflict_cond_iff s roomId st en).mpr ⟨b, hmem, hroom, hstat, hover.1, hover.2⟩
      by_cases hday : (((findByUserId s userId).filter (fun x =>
          dayStart x.startTime == dayStart st && (x.isActive || x.isPending))).length > 0)
      · rw [if_pos hday] at hok
        exact absurd hok (by simp)
      · rw [if_neg hday, if_pos hc2] at hok
        exact absurd hok (by simp)
    · unfold createBooking at hok
      rw [hr] at hok
      dsimp only at hok
      rw [if_pos hav] at hok
      exact absurd hok (by simp)

/-- C1 witness: in the state holding the approved 10:30 to 11:30
booking, creating day 2 8:00 to 9:00 for another user succeeds, so the
approved booking in the store does not overlap 8:00 to 9:00. -/
theorem C1_amended_witness :
    ¬ (halfPastBooking.startTime < 205200000 ∧ halfPastBooking.endTime > 201600000) := by
  exact C1_amended stateHalfPast tNow "r2" "U2" "N2" "A" 201600000 205200000
    (saveBooking stateHalfPast
      { id := "r2", roomId := "A", userId := "U2", userName := "N2",
        startTime := 201600000, endTime := 205200000,
        status := BookingStatus.PENDING, createdAt := tNow })
    { id := "r2", roomId := "A", userId := "U2", userName := "N2",
      startTime := 201600000, endTime := 205200000,
      status := BookingStatus.PENDING, createdAt := tNow }
    (by rfl)
    halfPastBooking (by simp [stateHalfPast]) rfl rfl

/-- A `Booking.create` failure is exactly a `validate` failure on the
constructed record. -/
theorem create_error_from_validate (now : Nat) (id roomId userId userName : String)
    (st en : Nat) (e : BookingError)
    (h : Booking.create now id roomId userId userName st en = Except.error e) :
    Booking.validate now
      { id := id, roomId := roomId, userId := userId, userName := userName,
        startTime := st, endTime := en,
        status := BookingStatus.PENDING, createdAt := now } = Except.error e := by
  unfold Booking.create at h
  dsimp only at h
  cases hv : Booking.validate now
      { id := id, roomId := roomId, userId := userId, userName := userName,
        startTime := st, endTime := en,
        status := BookingStatus.PENDING, createdAt := now } with
  | error e2 =>
    rw [hv] at h
    have he2 : e2 = e := by simpa using h
    rw [he2]
  | ok u =>
    rw [hv] at h
    simp at h

/-! ## C4: the conflict rule -/

/-- C4: with the room found and AVAILABLE and the requester free of
same-day PENDING or APPROVED bookings, `createBooking` fails with
SLOT_ALREADY_BOOKED exactly when some existing APPROVED reservation on
the same resource overlaps half-openly (existing.start < proposed.end
and existing.end > proposed.start); in particular PENDING reservations
never cause this rejection. -/
theorem C4_slotAlreadyBooked_iff (s : SystemState) (now : Nat)
    (newId userId userName roomId : String) (st en : Nat) (room : Room)
    (hr : findRoomById s roomId = some room)
    (hav : room.status = RoomStatus.AVAILABLE)
    (hday : ∀ b ∈ s.bookings, b.userId = userId → dayStart b.startTime = dayStart st →
      b.status ≠ BookingStatus.PENDING ∧ b.status ≠ BookingStatus.APPROVED) :
    (createBooking s now newId userId userName roomId st en =
        Except.error BookingError.SlotAlreadyBooked ↔
      ∃ b ∈ s.bookings, b.roomId = roomId ∧ b.status = BookingStatus.APPROVED ∧
        b.startTime < en ∧ b.endTime > st) := by
  rw [createBooking_spec s now newId userId userName roomId st en room hr
    (by simp [Room.isAvailable, hav])]
  rw [if_neg (by
    rw [sameDay_cond_iff]
    rintro ⟨b, hmem, hu, hd, hs⟩
    rcases hs with h | h
    · exact (hday b hmem hu hd).1 h
    · exact (hday b hmem hu hd).2 h)]
  by_cases hc : (((findByRoomAndDateRange s roomId st en).filter
      (fun b => b.isActive)).length > 0)
  · rw [if_pos hc]
    constructor
    · intro _
      exact (conflict_cond_iff s roomId st en).mp hc
    · intro _
      rfl
  · rw [if_neg hc]
    constructor
    · intro h
      exfalso
      cases hcr : Booking.create now newId roomId userId userName st en with
      | error e =>
        rw [hcr] at h
        have he : e = BookingError.SlotAlreadyBooked := by simpa using h
        have hv := create_error_from_validate now newId roomId userId userName st en e hcr
        rw [he] at hv
        exact absurd hv (validate_ne_slotAlreadyBooked now _)
      | ok b =>
        rw [hcr] at h
        exact absurd h (by simp)
    · intro hex
      exact absurd ((conflict_cond_iff s roomId st en).mpr hex) hc

/-- C4 witness: in the state holding the approved 10:30 to 11:30
booking, a 10:00 to 11:00 request by another user on room A is rejected
with SLOT_ALREADY_BOOKED. -/
theorem C4_witness :
    createBooking stateHalfPast tNow "r2" "U2" "N2" "A" tStartA tEndA =
      Except.error BookingError.SlotAlreadyBooked := by
  refine (C4_slotAlreadyBooked_iff stateHalfPast tNow "r2" "U2" "N2" "A" tStartA tEndA
    roomA rfl rfl ?_).mpr ⟨halfPastBooking, by simp [stateHalfPast], rfl, rfl,
      by decide, by decide⟩
  intro b hb hu _
  simp only [stateHalfPast, List.mem_singleton] at hb
  subst hb
  exact absurd hu (by decide)

/-! ## C5: the one-booking-per-day rule -/

/-- C5: with the room found and AVAILABLE, `createBooking` fails with
ONE_BOOKING_PER_DAY exactly when the requester already holds a PENDING
or APPROVED reservation whose start date equals the proposed start
date; reservations of other requesters, on other days, or in status
CANCELLED or COMPLETED never trigger this rejection. -/
theorem C5_oneBookingPerDay_iff (s : SystemState) (now : Nat)
    (newId userId userName roomId : String) (st en : Nat) (room : Room)
    (hr : findRoomById s roomId = some room)
    (hav : room.status = RoomStatus.AVAILABLE) :
    (createBooking s now newId userId userName roomId st en =
        Except.error BookingError.OneBookingPerDay ↔
      ∃ b ∈ s.bookings, b.userId = userId ∧ dayStart b.startTime = dayStart st ∧
        (b.status = BookingStatus.PENDING ∨ b.status = BookingStatus.APPROVED)) := by
  rw [createBooking_spec s now newId userId userName roomId st en room hr
    (by simp [Room.isAvailable, hav])]
  by_cases hday : (((findByUserId s userId).filter (fun b =>
      dayStart b.startTime == dayStart st && (b.isActive || b.isPending))).length > 0)
  · rw [if_pos hday]
    constructor
    · intro _
      exact (sameDay_cond_iff s userId st).mp hday
    · intro _
      rfl
  · rw [if_neg hday]
    constructor
    · intro h
      exfalso
      by_cases hc : (((findByRoomAndDateRange s roomId st en).filter
          (fun b => b.isActive)).length > 0)
      · rw [if_pos hc] at h
        exact absurd h (by simp)
      · rw [if_neg hc] at h
        cases hcr : Booking.create now newId roomId userId userName st en with
        | error e =>
          rw [hcr] at h
          have he : e = BookingError.OneBookingPerDay := by simpa using h
          have hv := create_error_from_validate now newId roomId userId userName st en e hcr
          rw [he] at hv
          exact absurd hv (validate_ne_oneBookingPerDay now _)
        | ok b =>
          rw [hcr] at h
          exact absurd h (by simp)
    · intro hex
      exact absurd ((sameDay_cond_iff s userId st).mpr hex) hday

/-- C5 witness: the holder of the approved 10:30 to 11:30 booking
requesting 10:00 to 11:00 the same day is rejected with
ONE_BOOKING_PER_DAY. -/
theorem C5_witness :
    createBooking stateHalfPast tNow "r3" "U1" "N1" "A" tStartA tEndA =
      Except.error BookingError.OneBookingPerDay := by
  exact (C5_oneBookingPerDay_iff stateHalfPast tNow "r3" "U1" "N1" "A" tStartA tEndA
    roomA rfl rfl).mpr ⟨halfPastBooking, by simp [stateHalfPast], rfl,
      by decide, Or.inr rfl⟩

/-! ## C6: reject, reopen, approve -/

/-- A pending request for day 2, 10:00 to 11:00. -/
def pendingBooking : Booking :=
  { id := "p", roomId := "A", userId := "U1", userName := "N1",
    startTime := tStartA, endTime := tEndA,
    status := BookingStatus.PENDING, createdAt := tNow }

/-- State with one PENDING booking and room A available. -/
def statePending : SystemState := { bookings := [pendingBooking], rooms := [roomA] }

/-- C6: for a reservation currently PENDING, reject then reopen then
approve walks PENDING to CANCELLED to PENDING to APPROVED; the room
store is untouched by reject and reopen and the room becomes OCCUPIED
at the final approve; approve fails with the invalid-transition error
unless the status is PENDING and reopen fails unless it is CANCELLED. -/
theorem C6_moderation_state_machine (s : SystemState) (id : String)
    (b : Booking) (room : Room)
    (hb : findBookingById s id = some b)
    (hp : b.status = BookingStatus.PENDING)
    (hr : findRoomById s b.roomId = some room) :
    rejectBooking s id =
      Except.ok (saveBooking s { b with status := BookingStatus.CANCELLED },
        { b with status := BookingStatus.CANCELLED }) ∧
    (saveBooking s { b with status := BookingStatus.CANCELLED }).rooms = s.rooms ∧
    reApproveBooking (saveBooking s { b with status := BookingStatus.CANCELLED }) id =
      Except.ok (saveBooking (saveBooking s { b with status := BookingStatus.CANCELLED })
          { b with status := BookingStatus.PENDING },
        { b with status := BookingStatus.PENDING }) ∧
    (saveBooking (saveBooking s { b with status := BookingStatus.CANCELLED })
        { b with status := BookingStatus.PENDING }).rooms = s.rooms ∧
    approveBooking (saveBooking (saveBooking s { b with status := BookingStatus.CANCELLED })
        { b with status := BookingStatus.PENDING }) id =
      Except.ok (saveRoom (saveBooking (saveBooking (saveBooking s
            { b with status := BookingStatus.CANCELLED })
            { b with status := BookingStatus.PENDING })
            { b with status := BookingStatus.APPROVED })
          { room with status := RoomStatus.OCCUPIED },
        { b with status := BookingStatus.APPROVED }) ∧
    findRoomById (saveRoom (saveBooking (saveBooking (saveBooking s
          { b with status := BookingStatus.CANCELLED })
          { b with status := BookingStatus.PENDING })
          { b with status := BookingStatus.APPROVED })
        { room with status := RoomStatus.OCCUPIED }) b.roomId =
      some { room with status := RoomStatus.OCCUPIED } ∧
    (∀ (s3 : SystemState) (b3 : Booking), findBookingById s3 id = some b3 →
      b3.status ≠ BookingStatus.PENDING →
      approveBooking s3 id = Except.error BookingError.OnlyPendingCanBeApproved) ∧
    (∀ (s3 : SystemState) (b3 : Booking), findBookingById s3 id = some b3 →
      b3.status ≠ BookingStatus.CANCELLED →
      reApproveBooking s3 id = Except.error BookingError.OnlyCancelledCanBeReApproved) := by
  have hid : b.id = id := find_key_eq Booking.id id s.bookings b hb
  have hbC : findBookingById (saveBooking s { b with status := BookingStatus.CANCELLED }) id =
      some { b with status := BookingStatus.CANCELLED } :=
    upsert_find Booking.id id s.bookings b { b with status := BookingStatus.CANCELLED } hb hid
  have hbP : findBookingById (saveBooking (saveBooking s
        { b with status := BookingStatus.CANCELLED })
        { b with status := BookingStatus.PENDING }) id =
      some { b with status := BookingStatus.PENDING } :=
    upsert_find Booking.id id
      (saveBooking s { b with status := BookingStatus.CANCELLED }).bookings
      { b with status := BookingStatus.CANCELLED }
      { b with status := BookingStatus.PENDING } hbC hid
  refine ⟨?_, rfl, ?_, rfl, ?_, ?_, ?_, ?_⟩
  · unfold rejectBooking
    rw [hb]
    dsimp only
    unfold Booking.reject
    rw [if_neg (by simp [hp])]
  · unfold reApproveBooking
    rw [hbC]
    dsimp only
    rw [if_neg (by simp)]
  · unfold approveBooking
    rw [hbP]
    dsimp only
    unfold Booking.approve
    rw [if_neg (by simp)]
    dsimp only
    have hroom : findRoomById (saveBooking (saveBooking (saveBooking s
          { b with status := BookingStatus.CANCELLED })
          { b with status := BookingStatus.PENDING })
          { b with status := BookingStatus.APPROVED }) b.roomId = some room := hr
    rw [hroom]
  · exact upsert_find Room.id b.roomId s.rooms room
      { room with status := RoomStatus.OCCUPIED } hr
      (find_key_eq Room.id b.roomId s.rooms room hr)
  · intro s3 b3 h3 hs3
    unfold approveBooking
    rw [h3]
    dsimp only
    unfold Booking.approve
    rw [if_pos hs3]
  · intro s3 b3 h3 hs3
    unfold reApproveBooking
    rw [h3]
    dsimp only
    rw [if_pos hs3]

/-- C6 witness: rejecting the concrete pending booking cancels it. -/
theorem C6_witness :
    rejectBooking statePending "p" =
      Except.ok (saveBooking statePending
          { pendingBooking with status := BookingStatus.CANCELLED },
        { pendingBooking with status := BookingStatus.CANCELLED }) :=
  (C6_moderation_state_machine statePending "p" pendingBooking roomA rfl rfl rfl).1

/-! ## C7: cancellation is owner-only and not repeatable -/

/-- C7: cancelling a reservation not owned by the caller fails with
the authorization error (the stores are untouched: the model returns
no successor state on error, mirroring that the code throws before any
save); cancelling by the owner succeeds once, and a second cancel of
the now-CANCELLED reservation fails with the invalid-transition
error. -/
theorem C7_cancel_ownership (s : SystemState) (now : Nat) (id reqId : String) (b : Booking)
    (hb : findBookingById s id = some b) :
    (b.userId ≠ reqId →
      cancelBooking s now id reqId = Except.error BookingError.Unauthorized) ∧
    (b.userId = reqId →
      (b.status = BookingStatus.PENDING ∨ b.status = BookingStatus.APPROVED) →
      ∃ s2 : SystemState, cancelBooking s now id reqId = Except.ok s2 ∧
        ∀ now2 : Nat, cancelBooking s2 now2 id reqId =
          Except.error BookingError.OnlyApprovedOrPendingCanBeCancelled) := by
  have hid : b.id = id := find_key_eq Booking.id id s.bookings b hb
  constructor
  · intro hne
    unfold cancelBooking
    rw [hb]
    dsimp only
    rw [if_pos hne]
  · intro hu hs
    unfold cancelBooking
    rw [hb]
    dsimp only
    rw [if_neg (by simp [hu])]
    unfold Booking.cancel
    rw [if_neg (by rcases hs with h | h <;> simp [h])]
    dsimp only
    refine ⟨updateRoomAvailability
      (saveBooking s { b with status := BookingStatus.CANCELLED }) now
      ({ b with status := BookingStatus.CANCELLED } : Booking).roomId, rfl, ?_⟩
    intro now2
    have hfind : findBookingById (updateRoomAvailability
        (saveBooking s { b with status := BookingStatus.CANCELLED }) now
        ({ b with status := BookingStatus.CANCELLED } : Booking).roomId) id =
        some { b with status := BookingStatus.CANCELLED } := by
      unfold findBookingById
      rw [updateRoomAvailability_bookings]
      exact upsert_find Booking.id id s.bookings b
        { b with status := BookingStatus.CANCELLED } hb hid
    rw [hfind]
    dsimp only
    rw [if_neg (by simp [hu])]
    rw [if_pos (by simp)]

/-- C7 witness: a cancel of the concrete pending booking by a stranger is
unauthorized, a cancel by the owner succeeds, and a repeated owner cancel
fails. -/
theorem C7_witness :
    (cancelBooking statePending tNow "p" "U2" =
      Except.error BookingError.Unauthorized) ∧
    ∃ s2 : SystemState, cancelBooking statePending tNow "p" "U1" = Except.ok s2 ∧
      ∀ now2 : Nat, cancelBooking s2 now2 "p" "U1" =
        Except.error BookingError.OnlyApprovedOrPendingCanBeCancelled := by
  constructor
  · exact (C7_cancel_ownership statePending tNow "p" "U2" pendingBooking rfl).1 (by decide)
  · exact (C7_cancel_ownership statePending tNow "p" "U1" pendingBooking rfl).2 rfl (Or.inl rfl)

/-! ## C8: the availability grid -/

/-- C8: `getAvailableSlots` always returns exactly 14 slots, one per
hour 7 to 20 in ascending order, and the slot for hour `7 + i` is
available exactly when no APPROVED reservation for the resource covers
the instant of that hour on that date (start at or before it, end
after it). -/
theorem C8_slots_shape (s : SystemState) (roomId : String) (date : Nat) :
    (getAvailableSlots s roomId date).length = 14 ∧
    ∀ (i : Nat) (h : i < (getAvailableSlots s roomId date).length),
      ((getAvailableSlots s roomId date).get ⟨i, h⟩).startHour = 7 + i ∧
      ((getAvailableSlots s roomId date).get ⟨i, h⟩).endHour = 7 + i + 1 ∧
      (((getAvailableSlots s roomId date).get ⟨i, h⟩).isAvailable = true ↔
        ¬ ∃ b ∈ s.bookings, b.roomId = roomId ∧ b.status = BookingStatus.APPROVED ∧
          b.startTime ≤ dayStart date + (7 + i) * msPerHour ∧
          dayStart date + (7 + i) * msPerHour < b.endTime) := by
  refine ⟨by simp [getAvailableSlots], ?_⟩
  intro i h
  have hi : i < 14 := by simpa [getAvailableSlots] using h
  have hX : (7 + i) * msPerHour ≤ 72000000 := by
    have h20 : (7 + i) * msPerHour ≤ 20 * msPerHour :=
      Nat.mul_le_mul_right msPerHour (by omega)
    have hm : (20 : Nat) * msPerHour = 72000000 := by unfold msPerHour; norm_num
    omega
  have hany : (((findByRoomAndDateRange s roomId (dayStart date) (dayEnd date)).any (fun b =>
      decide (b.startTime ≤ dayStart date + (7 + i) * msPerHour) &&
      decide (b.endTime > dayStart date + (7 + i) * msPerHour))) = true) ↔
      ∃ b ∈ s.bookings, b.roomId = roomId ∧ b.status = BookingStatus.APPROVED ∧
        b.startTime ≤ dayStart date + (7 + i) * msPerHour ∧
        dayStart date + (7 + i) * msPerHour < b.endTime := by
    rw [List.any_eq_true]
    unfold findByRoomAndDateRange
    constructor
    · rintro ⟨b, hbmem, hbp⟩
      rw [List.mem_filter] at hbmem
      obtain ⟨hmem, hcond⟩ := hbmem
      simp only [Bool.and_eq_true, beq_iff_eq, decide_eq_true_eq] at hcond hbp
      exact ⟨b, hmem, hcond.1.1.1, hcond.1.1.2, hbp.1, hbp.2⟩
    · rintro ⟨b, hmem, hroom, hstat, hle, hlt⟩
      refine ⟨b, ?_, ?_⟩
      · rw [List.mem_filter]
        refine ⟨hmem, ?_⟩
        simp only [Bool.and_eq_true, beq_iff_eq, decide_eq_true_eq]
        refine ⟨⟨⟨hroom, hstat⟩, ?_⟩, ?_⟩
        · unfold dayEnd msPerDay
          omega
        · omega
      · simp only [Bool.and_eq_true, decide_eq_true_eq]
        exact ⟨hle, hlt⟩
  refine ⟨?_, ?_, ?_⟩
  · simp [getAvailableSlots, List.get_eq_getElem, List.getElem_map, List.getElem_range]
  · simp [getAvailableSlots, List.get_eq_getElem, List.getElem_map, List.getElem_range]
  · simp only [getAvailableSlots, List.get_eq_getElem, List.getElem_map, List.getElem_range]
    rw [Bool.not_eq_true']
    rw [Bool.eq_false_iff]
    exact not_congr hany

/-- C8 witness: the fourth slot of the concrete grid is the 10:00 hour. -/
theorem C8_witness :
    ∃ h3 : 3 < (getAvailableSlots stateHalfPast "A" tStartA).length,
      ((getAvailableSlots stateHalfPast "A" tStartA).get ⟨3, h3⟩).startHour = 7 + 3 := by
  have hlen : (getAvailableSlots stateHalfPast "A" tStartA).length = 14 :=
    (C8_slots_shape stateHalfPast "A" tStartA).1
  have h3 : 3 < (getAvailableSlots stateHalfPast "A" tStartA).length := by
    rw [hlen]
    omega
  exact ⟨h3, ((C8_slots_shape stateHalfPast "A" tStartA).2 3 h3).1⟩

/-! ## C9: the two quota rules differ -/

/-- C9: the max-2-concurrent-active-bookings rule and the
one-booking-per-calendar-day rule are inequivalent in both
directions: a history with one approved booking on the proposed day is
accepted by the former and rejected by the latter, and a history with
two approved bookings on other days is rejected by the former and
accepted by the latter. -/
theorem C9_quota_variants_differ :
    (∃ (hist : List Booking) (st : Nat),
      maxTwoQuotaRejects hist = false ∧ onePerDayQuotaRejects hist st = true) ∧
    (∃ (hist : List Booking) (st : Nat),
      maxTwoQuotaRejects hist = true ∧ onePerDayQuotaRejects hist st = false) := by
  constructor
  · exact ⟨[halfPastBooking], tStartA, by decide, by decide⟩
  · refine ⟨[halfPastBooking,
      { halfPastBooking with
          id := "h2",
          startTime := tStartB + 5 * 86400000,
          endTime := tEndB + 5 * 86400000 }],
      tStartA + 9 * 86400000, by decide, by decide⟩

/-! ## C10: the grid misses mid-hour overlaps -/

/-- C10: the APPROVED reservation starting 10:30 (accepted by
validation and not hour-aligned) leaves the 10:00 slot of the grid
marked available, yet a request for exactly 10:00 to 11:00 on the same
resource is rejected with SLOT_ALREADY_BOOKED because the reservation
overlaps it half-openly. -/
theorem C10_grid_blind_spot :
    Booking.validate tNow halfPastBooking = Except.ok () ∧
    halfPastBooking.status = BookingStatus.APPROVED ∧
    halfPastBooking.startTime % msPerHour ≠ 0 ∧
    (∃ h3 : 3 < (getAvailableSlots stateHalfPast "A" tStartA).length,
      ((getAvailableSlots stateHalfPast "A" tStartA).get ⟨3, h3⟩).startHour = 10 ∧
      ((getAvailableSlots stateHalfPast "A" tStartA).get ⟨3, h3⟩).isAvailable = true) ∧
    (halfPastBooking.startTime < tEndA ∧ halfPastBooking.endTime > tStartA) ∧
    createBooking stateHalfPast tNow "r2" "U2" "N2" "A" tStartA tEndA =
      Except.error BookingError.SlotAlreadyBooked := by
  refine ⟨rfl, rfl, by decide, ⟨by decide, rfl, rfl⟩, ⟨by decide, by decide⟩, rfl⟩
